import Mathlib

/-!
Shallow embedding of `src/json.rs` of moonfire-nvr: the JSON view-model
serialization layer.  Rust structs become Lean structures, the serde-derived
serializers (including the custom `serialize_with` functions and
`skip_serializing_if` attributes) become explicit functions into a `Json`
value type, and fallible paths become `Except` / `PanicOr`.
The external `db` crate entities (cameras, streams, day buckets, session
hashes) are not part of `src/`; they are modelled from the spec where noted.
-/

namespace Moonfire

/-- A JSON document.  Objects are ordered association lists, matching the
order in which serde's `SerializeMap` emits keys; arrays keep emission
order. -/
inductive Json where
  | null : Json
  | bool : Bool → Json
  | int : Int → Json
  | str : String → Json
  | arr : List Json → Json
  | obj : List (String × Json) → Json

/-- Keys of a JSON object, in emission order (empty for non-objects). -/
def Json.objKeys : Json → List String
  | Json.obj l => l.map Prod.fst
  | _ => []

/-- Lookup of a key in a JSON object (none for non-objects). -/
def Json.objLookup (j : Json) (k : String) : Option Json :=
  match j with
  | Json.obj l => l.lookup k
  | _ => none

/-- Whether the value is a JSON object (serde map). -/
def Json.isObj : Json → Bool
  | Json.obj _ => true
  | _ => false

/-- Whether the value is a JSON array (serde seq). -/
def Json.isArr : Json → Bool
  | Json.arr _ => true
  | _ => false

/-- Outcome of running Rust code that may `unwrap()`/`expect()`: either a
value, or a process-aborting panic carrying the panic message.  A panic is
distinct from a recoverable `Except.error`. -/
inductive PanicOr (α : Type) where
  | panic : String → PanicOr α
  | ok : α → PanicOr α
deriving Repr, DecidableEq

/-- Sequencing of possibly-panicking computations: a panic short-circuits. -/
def PanicOr.bind {α β : Type} : PanicOr α → (α → PanicOr β) → PanicOr β
  | PanicOr.panic e, _ => PanicOr.panic e
  | PanicOr.ok a, f => f a

/-- Rust `Result::unwrap()`: converts a recoverable error into a panic. -/
def unwrapResult {α : Type} : Except String α → PanicOr α
  | Except.ok a => PanicOr.ok a
  | Except.error e => PanicOr.panic e

deriving instance DecidableEq for Except

/-- Modelled from the spec: `db::StreamDayKey` (external `db` crate, not in
`src/`): "a day-key type exposing a canonical string form and a
[start,end) bound pair".  `key` is the canonical string form (`as_ref`),
`boundsStart`/`boundsEnd` the derived bound pair (`bounds()`, `.0` of each
recording time). -/
structure StreamDayKey where
  key : String
  boundsStart : Int
  boundsEnd : Int
deriving Repr, DecidableEq

/-- Modelled from the spec: `db::StreamDayValue` (external `db` crate):
"accumulated duration for that day"; `duration` is the `.0` of the
duration newtype. -/
structure StreamDayValue where
  duration : Int
deriving Repr, DecidableEq

/-- Modelled from the spec: `db::Stream` (external `db` crate): "retain-byte
budget, optional recorded time range (start/end, 90,000-tick clock units),
total duration, total sample-file bytes, an ordered mapping from DayKey to
DayValue".  The `BTreeMap` of day buckets is modelled as an association
list in its iteration order (ascending key order is stated as a hypothesis
where a theorem needs it). -/
structure DbStream where
  retain_bytes : Int
  range : Option (Int × Int)
  duration : Int
  sample_file_bytes : Int
  days : List (StreamDayKey × StreamDayValue)
deriving Repr, DecidableEq

/-- Modelled from the spec: `db::Camera` (external `db` crate): "identity
(UUID), short name, description, up to two associated Stream references
(slots 0 and 1)".  The UUID is kept as its string form. -/
structure DbCamera where
  uuid : String
  short_name : String
  description : String
  streams : Option Int × Option Int
deriving Repr, DecidableEq

/-- Modelled from the spec: `db::LockedDatabase` (external `db` crate): the
read-only snapshot, exposing "an ordered camera-by-id lookup, an ordered
stream-by-id lookup".  The two `BTreeMap`s are association lists in their
iteration order. -/
structure LockedDatabase where
  camerasById : List (Int × DbCamera)
  streamsById : List (Int × DbStream)
deriving Repr, DecidableEq

/-- `db.cameras_by_id()`. -/
def LockedDatabase.cameras_by_id (db : LockedDatabase) : List (Int × DbCamera) :=
  db.camerasById

/-- `db.streams_by_id().get(&id)`. -/
def LockedDatabase.getStream (db : LockedDatabase) (id : Int) : Option DbStream :=
  db.streamsById.lookup id

/-- Modelled from the spec: `db::StreamType::from_index(i)` and `as_str()`
(external `db` crate): "a stream-type enumeration with exactly two variants
each exposing a stable name and an index" with example names "main"/"sub". -/
def StreamType.fromIndex : Nat → Option String
  | 0 => some "main"
  | 1 => some "sub"
  | _ => none

/-- The view struct `Stream` of `json.rs` (named to avoid clashing with the
db-side stream record). -/
structure StreamView where
  retain_bytes : Int
  min_start_time_90k : Option Int
  max_end_time_90k : Option Int
  total_duration_90k : Int
  total_sample_file_bytes : Int
  days : Option (List (StreamDayKey × StreamDayValue))
deriving Repr, DecidableEq

/-- The view struct `Camera` of `json.rs`; `streams` is the two-slot array
`[Option<Stream>; 2]`. -/
structure CameraView where
  uuid : String
  short_name : String
  description : String
  streams : Option StreamView × Option StreamView
deriving Repr, DecidableEq

/-- `Stream::wrap`: resolves the optional stream id against the snapshot's
stream index; an unresolvable id is the recoverable error
`format_err!("missing stream {}", id)`. -/
def Stream.wrap (db : LockedDatabase) (id : Option Int) (include_days : Bool) :
    Except String (Option StreamView) :=
  match id with
  | none => Except.ok none
  | some id =>
    match db.getStream id with
    | none => Except.error ("missing stream " ++ toString id)
    | some s =>
      Except.ok (some
        { retain_bytes := s.retain_bytes
          min_start_time_90k := s.range.map Prod.fst
          max_end_time_90k := s.range.map Prod.snd
          total_duration_90k := s.duration
          total_sample_file_bytes := s.sample_file_bytes
          days := if include_days then some s.days else none })

/-- `Camera::wrap`: wraps both stream slots, propagating any error with
`?`. -/
def Camera.wrap (c : DbCamera) (db : LockedDatabase) (include_days : Bool) :
    Except String CameraView := do
  let s0 ← Stream.wrap db c.streams.1 include_days
  let s1 ← Stream.wrap db c.streams.2 include_days
  Except.ok
    { uuid := c.uuid
      short_name := c.short_name
      description := c.description
      streams := (s0, s1) }

/-- `Stream::serialize_days`: `None` serializes as JSON null (the field is
additionally skipped by `skip_serializing_if`, see `StreamView.toJson`);
`Some` serializes the day map in iteration order, each value via
`StreamDayValue` with the bounds computed from the key. -/
def Stream.serialize_days (days : Option (List (StreamDayKey × StreamDayValue))) : Json :=
  match days with
  | none => Json.null
  | some d =>
    Json.obj (d.map fun kv =>
      (kv.1.key,
       Json.obj
         [("startTime90k", Json.int kv.1.boundsStart),
          ("endTime90k", Json.int kv.1.boundsEnd),
          ("totalDuration90k", Json.int kv.2.duration)]))

/-- The serde-derived serialization of the `Stream` view struct
(`rename_all = "camelCase"`): the two `Option<i64>` fields have no
`skip_serializing_if`, so `None` is emitted as a null value under the key;
`days` has `skip_serializing_if = "Option::is_none"`, so it is omitted
entirely when `None`. -/
def StreamView.toJson (s : StreamView) : Json :=
  Json.obj
    ([("retainBytes", Json.int s.retain_bytes),
      ("minStartTime90k", match s.min_start_time_90k with
        | some v => Json.int v
        | none => Json.null),
      ("maxEndTime90k", match s.max_end_time_90k with
        | some v => Json.int v
        | none => Json.null),
      ("totalDuration90k", Json.int s.total_duration_90k),
      ("totalSampleFileBytes", Json.int s.total_sample_file_bytes)]
     ++ (if s.days.isSome then [("days", Stream.serialize_days s.days)] else []))

/-- `Camera::serialize_streams`: emits a map, skipping an absent slot
entirely; keys come from `StreamType::from_index(i).expect(...)`, which
cannot fire since the iteration indices are exactly 0 and 1 (`getD`
renders the impossible default). -/
def Camera.serialize_streams (streams : Option StreamView × Option StreamView) : Json :=
  Json.obj
    ((match streams.1 with
      | some s => [((StreamType.fromIndex 0).getD "", StreamView.toJson s)]
      | none => [])
     ++ (match streams.2 with
      | some s => [((StreamType.fromIndex 1).getD "", StreamView.toJson s)]
      | none => []))

/-- The serde-derived serialization of the `Camera` view struct
(`rename_all = "camelCase"`, `streams` via `Camera::serialize_streams`). -/
def CameraView.toJson (c : CameraView) : Json :=
  Json.obj
    [("uuid", Json.str c.uuid),
     ("shortName", Json.str c.short_name),
     ("description", Json.str c.description),
     ("streams", Camera.serialize_streams c.streams)]

/-- The loop body of `TopLevel::serialize_cameras`: wraps each camera in
`cameras_by_id` iteration order and serializes it; the `.unwrap()` on
`Camera::wrap` (the `// TODO: no unwrap.` line) turns a recoverable wrap
error into a panic. -/
def serializeCamerasList (db : LockedDatabase) (include_days : Bool) :
    List (Int × DbCamera) → PanicOr (List Json)
  | [] => PanicOr.ok []
  | c :: rest =>
    PanicOr.bind (unwrapResult (Camera.wrap c.2 db include_days)) fun cv =>
    PanicOr.bind (serializeCamerasList db include_days rest) fun js =>
    PanicOr.ok (CameraView.toJson cv :: js)

/-- `TopLevel::serialize_cameras`: serializes the camera map's values as a
sequence (JSON array), in `cameras_by_id` iteration order. -/
def TopLevel.serialize_cameras (db : LockedDatabase) (include_days : Bool) : PanicOr Json :=
  PanicOr.bind (serializeCamerasList db include_days db.cameras_by_id) fun js =>
  PanicOr.ok (Json.arr js)

/-- The base64 character (as an ASCII code) at index `n` of the standard
alphabet `A-Z a-z 0-9 + /` (out-of-range indices, which never occur for
6-bit group values, fall through to the last branch). -/
def b64Char (n : Nat) : Nat :=
  if n < 26 then 65 + n
  else if n < 52 then 71 + n
  else if n < 62 then n - 4
  else if n = 62 then 43
  else 47

/-- Modelled from the spec: the base64 encoding step of
`SessionHash::encode_base64` (external `db::auth`, not in `src/`): "the
session's fixed-size binary hash encoded as base64 text".  Standard base64
of a byte list, as ASCII codes, with `'='` (61) padding. -/
def base64EncodeBytes : List Nat → List Nat
  | [] => []
  | [a] => [b64Char (a / 4), b64Char (a % 4 * 16), 61, 61]
  | [a, b] => [b64Char (a / 4), b64Char (a % 4 * 16 + b / 16), b64Char (b % 16 * 4), 61]
  | a :: b :: c :: rest =>
    b64Char (a / 4) :: b64Char (a % 4 * 16 + b / 16) ::
    b64Char (b % 16 * 4 + c / 64) :: b64Char (c % 64) ::
    base64EncodeBytes rest

/-- The 6-bit value of a base64 alphabet character; `none` for characters
outside the alphabet (including `'='` and NUL). -/
def b64Val (c : Char) : Option Nat :=
  let n := c.toNat
  if 65 ≤ n ∧ n ≤ 90 then some (n - 65)
  else if 97 ≤ n ∧ n ≤ 122 then some (n - 71)
  else if 48 ≤ n ∧ n ≤ 57 then some (n + 4)
  else if n = 43 then some 62
  else if n = 47 then some 63
  else none

/-- Standard base64 decoding of a character list into bytes; fails on any
character outside the alphabet, misplaced padding, or a length that is not
a multiple of four. -/
def base64DecodeChars : List Char → Option (List Nat)
  | [] => some []
  | a :: b :: c :: d :: rest => do
    let va ← b64Val a
    let vb ← b64Val b
    if c = '=' then
      if d = '=' ∧ rest = [] then some [va * 4 + vb / 16] else none
    else do
      let vc ← b64Val c
      if d = '=' then
        if rest = [] then some [va * 4 + vb / 16, vb % 16 * 16 + vc / 4] else none
      else do
        let vd ← b64Val d
        let tail ← base64DecodeChars rest
        some ((va * 4 + vb / 16) :: (vb % 16 * 16 + vc / 4) :: (vc % 4 * 64 + vd) :: tail)
  | _ => none

/-- Standard base64 decoding of a string into bytes. -/
def base64Decode (s : String) : Option (List Nat) :=
  base64DecodeChars s.toList

/-- Modelled from the spec: `db::auth::SessionHash` (external `db` crate):
"CSRF hash (fixed-size binary token)"; the spec's session scenario gives
it 16 bytes.  `bytes` is the hash's byte list. -/
structure SessionHash where
  bytes : List Nat
deriving Repr, DecidableEq

/-- Modelled from the spec: `SessionHash::encode_base64(&mut out)` (external
`db::auth`): writes the base64 text of the hash into the start of the
caller-provided buffer, leaving the remaining buffer bytes untouched. -/
def SessionHash.encode_base64 (h : SessionHash) (out : List Nat) : List Nat :=
  let e := base64EncodeBytes h.bytes
  e ++ out.drop e.length

/-- `std::str::from_utf8` restricted to the ASCII fragment exercised here
(base64 characters, `'='` and NUL are all ASCII, and ASCII is valid UTF-8):
succeeds iff every byte is below 128.  The `Result` mirrors from_utf8's
fallibility; `serialize_csrf` then `expect`s it. -/
def strFromUtf8Ascii (bytes : List Nat) : Option String :=
  if bytes.all (fun b => b < 128) then
    some (String.mk (bytes.map Char.ofNat))
  else
    none

/-- The view struct `Session` of `json.rs`. -/
structure Session where
  username : String
  csrf : SessionHash
deriving Repr, DecidableEq

/-- `Session::serialize_csrf`: fills a fixed 32-byte zeroed buffer via
`encode_base64`, converts the whole buffer with
`from_utf8(&tmp[..]).expect("base64 is UTF-8")` (the `expect` is the
panic branch) and serializes it as a JSON string. -/
def Session.serialize_csrf (csrf : SessionHash) : PanicOr Json :=
  match strFromUtf8Ascii (csrf.encode_base64 (List.replicate 32 0)) with
  | some s => PanicOr.ok (Json.str s)
  | none => PanicOr.panic "base64 is UTF-8"

/-- The serde-derived serialization of the `Session` view struct
(`rename_all = "camelCase"`, `csrf` via `Session::serialize_csrf`). -/
def Session.toJson (s : Session) : PanicOr Json :=
  PanicOr.bind (Session.serialize_csrf s.csrf) fun c =>
  PanicOr.ok (Json.obj [("username", Json.str s.username), ("csrf", c)])

/-- The serialization of the `session` field of `TopLevel`: a plain
`Option` with no `skip_serializing_if`, so `None` serializes as JSON
null. -/
def sessionFieldJson : Option Session → PanicOr Json
  | none => PanicOr.ok Json.null
  | some s => Session.toJson s

/-- The view struct `TopLevel` of `json.rs`: the `cameras` field is the
`(&db::LockedDatabase, bool)` tuple whose bool is `include_days`. -/
structure TopLevel where
  time_zone_name : String
  camerasDb : LockedDatabase
  include_days : Bool
  session : Option Session
deriving Repr, DecidableEq

/-- The serde-derived serialization of `TopLevel` (`rename_all =
"camelCase"`): fields in declaration order; `cameras` via
`TopLevel::serialize_cameras`; `session` is a plain `Option` with no
`skip_serializing_if`, so `None` serializes as a null value under the
`session` key. -/
def TopLevel.toJson (t : TopLevel) : PanicOr Json :=
  PanicOr.bind (TopLevel.serialize_cameras t.camerasDb t.include_days) fun cams =>
  PanicOr.bind (sessionFieldJson t.session) fun sess =>
  PanicOr.ok (Json.obj
    [("timeZoneName", Json.str t.time_zone_name),
     ("cameras", cams),
     ("session", sess)])

/-- The view struct `Recording` of `json.rs` (unsigned `open_id`, width and
height are kept as `Nat`). -/
structure Recording where
  start_time_90k : Int
  end_time_90k : Int
  sample_file_bytes : Int
  video_samples : Int
  video_sample_entry_sha1 : String
  start_id : Int
  open_id : Nat
  first_uncommitted : Option Int
  end_id : Option Int
  video_sample_entry_width : Nat
  video_sample_entry_height : Nat
  growing : Bool
deriving Repr, DecidableEq

/-- The serde-derived serialization of `Recording` (`rename_all =
"camelCase"`): fields in declaration order; `first_uncommitted` and
`end_id` are skipped when `None` (`skip_serializing_if = "Option::is_none"`),
`growing` is skipped when false (`skip_serializing_if = "Not::not"`). -/
def Recording.toJson (r : Recording) : Json :=
  Json.obj
    ([("startTime90k", Json.int r.start_time_90k),
      ("endTime90k", Json.int r.end_time_90k),
      ("sampleFileBytes", Json.int r.sample_file_bytes),
      ("videoSamples", Json.int r.video_samples),
      ("videoSampleEntrySha1", Json.str r.video_sample_entry_sha1),
      ("startId", Json.int r.start_id),
      ("openId", Json.int (Int.ofNat r.open_id))]
     ++ (match r.first_uncommitted with
         | some v => [("firstUncommitted", Json.int v)]
         | none => [])
     ++ (match r.end_id with
         | some v => [("endId", Json.int v)]
         | none => [])
     ++ [("videoSampleEntryWidth", Json.int (Int.ofNat r.video_sample_entry_width)),
         ("videoSampleEntryHeight", Json.int (Int.ofNat r.video_sample_entry_height))]
     ++ (if r.growing then [("growing", Json.bool true)] else []))

/-- The request-body struct `SampleFileDirPath` of `json.rs`. -/
structure SampleFileDirPath where
  path : String
deriving Repr, DecidableEq

/-- The serde-derived deserialization of `SampleFileDirPath` from a JSON
value: expects an object, reads the string field `path`; a missing field,
a non-string value or a non-object input is a recoverable decode error. -/
def SampleFileDirPath.deserialize (j : Json) : Except String SampleFileDirPath :=
  match j with
  | Json.obj fields =>
    match fields.lookup "path" with
    | some (Json.str s) => Except.ok { path := s }
    | some _ => Except.error "invalid type: expected a string for field path"
    | none => Except.error "missing field path"
  | _ => Except.error "invalid type: expected a map"

/-- The JSON value of the request body `{"path": p}` (the encoding half of
the round trip: how a client materializes a `PathInput` body). -/
def pathInputBody (p : String) : Json :=
  Json.obj [("path", Json.str p)]

/-! Concrete fixtures used by witnesses and counterexamples. -/

/-- A stream record with no recorded range and no day buckets. -/
def sNoRange : DbStream :=
  { retain_bytes := 1000, range := none, duration := 0, sample_file_bytes := 0, days := [] }

/-- A snapshot holding only stream 1 (the no-range stream). -/
def dbC2 : LockedDatabase :=
  { camerasById := [], streamsById := [(1, sNoRange)] }

/-- The view produced by wrapping stream 1 of `dbC2` without day detail. -/
def vNoRange : StreamView :=
  { retain_bytes := 1000, min_start_time_90k := none, max_end_time_90k := none,
    total_duration_90k := 0, total_sample_file_bytes := 0, days := none }

/-- The view produced by wrapping stream 1 of `dbC2` with day detail. -/
def vWithDays : StreamView :=
  { retain_bytes := 1000, min_start_time_90k := none, max_end_time_90k := none,
    total_duration_90k := 0, total_sample_file_bytes := 0, days := some [] }

/-- A camera whose slot 0 references stream 5. -/
def camBad : DbCamera :=
  { uuid := "11111111-1111-1111-1111-111111111111", short_name := "front",
    description := "", streams := (some 5, none) }

/-- A snapshot where camera 1's slot-0 stream reference (id 5) does not
resolve: the stream index is empty. -/
def dbBad : LockedDatabase :=
  { camerasById := [(1, camBad)], streamsById := [] }

/-- A camera with both stream slots absent. -/
def camNone : DbCamera :=
  { uuid := "u", short_name := "n", description := "d", streams := (none, none) }

/-- A snapshot holding only `camNone` under camera id 7. -/
def dbOne : LockedDatabase :=
  { camerasById := [(7, camNone)], streamsById := [] }

/-- The serialized form of `camNone`. -/
def camJsonOne : Json :=
  Json.obj
    [("uuid", Json.str "u"), ("shortName", Json.str "n"),
     ("description", Json.str "d"), ("streams", Json.obj [])]

/-- The serialized camera sequence of `dbOne`. -/
def jOne : Json := Json.arr [camJsonOne]

/-- A top-level view over `dbOne` with no session. -/
def tlNone : TopLevel :=
  { time_zone_name := "UTC", camerasDb := dbOne, include_days := false, session := none }

/-- The serialized form of `tlNone`. -/
def jTlNone : Json :=
  Json.obj
    [("timeZoneName", Json.str "UTC"), ("cameras", jOne), ("session", Json.null)]

/-- A two-entry day-bucket list with ascending keys. -/
def dTwo : List (StreamDayKey × StreamDayValue) :=
  [({ key := "2019-01-01", boundsStart := 0, boundsEnd := 10 }, { duration := 5 }),
   ({ key := "2019-01-02", boundsStart := 10, boundsEnd := 20 }, { duration := 7 })]

/-- A recording with `growing` set and both optional ids present. -/
def recGrowing : Recording :=
  { start_time_90k := 1, end_time_90k := 2, sample_file_bytes := 3,
    video_samples := 4, video_sample_entry_sha1 := "da39a3ee", start_id := 5,
    open_id := 6, first_uncommitted := some 7, end_id := some 8,
    video_sample_entry_width := 9, video_sample_entry_height := 10,
    growing := true }

/-- The 16-byte all-zero CSRF hash of the spec's session scenario. -/
def hashZero16 : SessionHash := { bytes := List.replicate 16 0 }

/-- The string `serialize_csrf` produces for `hashZero16`: the 24-character
base64 text of 16 zero bytes followed by the 8 untouched zero bytes of the
fixed 32-byte buffer. -/
def csrfOut : String :=
  String.mk ((SessionHash.encode_base64 hashZero16 (List.replicate 32 0)).map Char.ofNat)

/-! Helper lemmas. -/

/-- Every base64 alphabet code is ASCII. -/
theorem b64Char_lt_128 (n : Nat) : b64Char n < 128 := by
  unfold b64Char
  split_ifs <;> omega

/-- Base64 encoding produces only ASCII codes. -/
theorem base64EncodeBytes_all_lt_128 (bs : List Nat) :
    ∀ x ∈ base64EncodeBytes bs, x < 128 := by
  induction bs using base64EncodeBytes.induct with
  | case1 => simp [base64EncodeBytes]
  | case2 a =>
    intro x hx
    simp [base64EncodeBytes] at hx
    rcases hx with rfl | rfl | rfl
    all_goals first | exact b64Char_lt_128 _ | omega
  | case3 a b =>
    intro x hx
    simp [base64EncodeBytes] at hx
    rcases hx with rfl | rfl | rfl | rfl
    all_goals first | exact b64Char_lt_128 _ | omega
  | case4 a b c rest ih =>
    intro x hx
    simp [base64EncodeBytes] at hx
    rcases hx with rfl | rfl | rfl | rfl | h
    all_goals first | exact b64Char_lt_128 _ | exact ih x h

/-- Inversion of `Stream.wrap` on a present slot: a successful wrap means
the id resolved and fixes every field of the view. -/
theorem Stream.wrap_some_inv (db : LockedDatabase) (id : Int) (b : Bool) (v : StreamView)
    (hw : Stream.wrap db (some id) b = Except.ok (some v)) :
    ∃ s, db.getStream id = some s ∧
      v = { retain_bytes := s.retain_bytes,
            min_start_time_90k := s.range.map Prod.fst,
            max_end_time_90k := s.range.map Prod.snd,
            total_duration_90k := s.duration,
            total_sample_file_bytes := s.sample_file_bytes,
            days := if b then some s.days else none } := by
  simp only [Stream.wrap] at hw
  cases hg : db.getStream id with
  | none => rw [hg] at hw; exact absurd hw (by simp)
  | some s =>
    rw [hg] at hw
    simp only [Except.ok.injEq, Option.some.injEq] at hw
    exact ⟨s, rfl, hw.symm⟩

/-- For an association list, a key's lookup succeeds exactly when the key
occurs among the mapped-out first components. -/
theorem lookup_isSome_iff_mem_keys {β : Type} (l : List (String × β)) (k : String) :
    (l.lookup k).isSome = true ↔ k ∈ l.map Prod.fst := by
  induction l with
  | nil => simp [List.lookup]
  | cons p rest ih =>
    cases h : (k == p.1) with
    | true =>
      have : k = p.1 := by exact eq_of_beq h
      simp [List.lookup, h, this]
    | false =>
      have : ¬ (k = p.1) := by
        intro he
        rw [he] at h
        simp at h
      simp [List.lookup, h, this, ih]

/-- The loop of `serialize_cameras` succeeds exactly when every wrap
succeeds, and then emits one serialized camera per snapshot entry, in the
snapshot's iteration order. -/
theorem serializeCamerasList_ok (db : LockedDatabase) (b : Bool) :
    ∀ (l : List (Int × DbCamera)) (js : List Json),
      serializeCamerasList db b l = PanicOr.ok js →
      List.Forall₂
        (fun (p : Int × DbCamera) (e : Json) =>
          ∃ cv, Camera.wrap p.2 db b = Except.ok cv ∧ e = CameraView.toJson cv)
        l js := by
  intro l
  induction l with
  | nil =>
    intro js h
    simp only [serializeCamerasList, PanicOr.ok.injEq] at h
    rw [← h]
    exact List.Forall₂.nil
  | cons c rest ih =>
    intro js h
    unfold serializeCamerasList at h
    cases hw : Camera.wrap c.2 db b with
    | error e =>
      rw [hw] at h
      simp [unwrapResult, PanicOr.bind] at h
    | ok cv =>
      rw [hw] at h
      simp only [unwrapResult, PanicOr.bind] at h
      cases hr : serializeCamerasList db b rest with
      | panic e =>
        rw [hr] at h
        simp [PanicOr.bind] at h
      | ok js2 =>
        rw [hr] at h
        simp only [PanicOr.bind, PanicOr.ok.injEq] at h
        rw [← h]
        exact List.Forall₂.cons ⟨cv, hw, rfl⟩ (ih js2 hr)

/-- A key whose lookup succeeds in a JSON object occurs among the object's
keys. -/
theorem objLookup_some_mem_keys (j : Json) (k : String) (x : Json)
    (h : j.objLookup k = some x) : k ∈ j.objKeys := by
  cases j with
  | obj l =>
    have h2 : (l.lookup k).isSome = true := by
      have he : Json.objLookup (Json.obj l) k = l.lookup k := rfl
      rw [he] at h
      rw [h]
      rfl
    simpa [Json.objKeys] using (lookup_isSome_iff_mem_keys l k).mp h2
  | null => simp [Json.objLookup] at h
  | bool b => simp [Json.objLookup] at h
  | int n => simp [Json.objLookup] at h
  | str s => simp [Json.objLookup] at h
  | arr a => simp [Json.objLookup] at h

/-! Claim theorems. -/

/-- Claim C1: on a snapshot where camera 1's slot-0 reference (stream id 5)
does not resolve, `Camera::wrap` does return the recoverable error
"missing stream 5" — but `TopLevel::serialize_cameras` unwraps that error
and panics with the same message instead of propagating it, so the process
aborts and no failed-request error reaches the caller.  This evaluates the
code at the claim's failing input. -/
theorem c1_missing_stream_wrap_err_but_serialize_panics :
    Camera.wrap camBad dbBad true = Except.error "missing stream 5" ∧
    TopLevel.serialize_cameras dbBad true = PanicOr.panic "missing stream 5" := by
  constructor
  · decide
  · rfl

/-- Claim C2 (counterexample): wrapping the no-range stream 1 of `dbC2`
yields the view `vNoRange`, whose serialization *does* contain both a
`minStartTime90k` and a `maxEndTime90k` key — each mapped to JSON null —
contradicting the claim that both keys are absent from the output
object. -/
theorem c2_counterexample_null_keys_present :
    Stream.wrap dbC2 (some 1) false = Except.ok (some vNoRange) ∧
    "minStartTime90k" ∈ (StreamView.toJson vNoRange).objKeys ∧
    "maxEndTime90k" ∈ (StreamView.toJson vNoRange).objKeys ∧
    (StreamView.toJson vNoRange).objLookup "minStartTime90k" = some Json.null ∧
    (StreamView.toJson vNoRange).objLookup "maxEndTime90k" = some Json.null :=
  ⟨by decide, by decide, by decide, rfl, rfl⟩

/-- Claim C2 (amended): for every stream whose recorded range is absent, the
serialized Stream object contains both the `minStartTime90k` and the
`maxEndTime90k` key, each present with value null (the two `Option` fields
have no skip attribute, so `None` serializes as null rather than being
omitted). -/
theorem c2_no_range_keys_null (db : LockedDatabase) (id : Int) (b : Bool)
    (s : DbStream) (v : StreamView)
    (hs : db.getStream id = some s) (hr : s.range = none)
    (hw : Stream.wrap db (some id) b = Except.ok (some v)) :
    (StreamView.toJson v).objLookup "minStartTime90k" = some Json.null ∧
    (StreamView.toJson v).objLookup "maxEndTime90k" = some Json.null ∧
    "minStartTime90k" ∈ (StreamView.toJson v).objKeys ∧
    "maxEndTime90k" ∈ (StreamView.toJson v).objKeys := by
  obtain ⟨s2, hg2, hv⟩ := Stream.wrap_some_inv db id b v hw
  rw [hs] at hg2
  injection hg2 with he
  subst he
  rw [hr] at hv
  simp only [Option.map_none'] at hv
  subst hv
  cases b with
  | false =>
    exact ⟨rfl, rfl, objLookup_some_mem_keys _ _ _ rfl, objLookup_some_mem_keys _ _ _ rfl⟩
  | true =>
    exact ⟨rfl, rfl, objLookup_some_mem_keys _ _ _ rfl, objLookup_some_mem_keys _ _ _ rfl⟩

/-- Claim C2 (witness): the amended theorem applied to the concrete
no-range stream 1 of `dbC2`. -/
theorem c2_no_range_keys_null_witness :
    (StreamView.toJson vNoRange).objLookup "minStartTime90k" = some Json.null ∧
    (StreamView.toJson vNoRange).objLookup "maxEndTime90k" = some Json.null ∧
    "minStartTime90k" ∈ (StreamView.toJson vNoRange).objKeys ∧
    "maxEndTime90k" ∈ (StreamView.toJson vNoRange).objKeys :=
  c2_no_range_keys_null dbC2 1 false sNoRange vNoRange (by decide) rfl (by decide)

/-- Claim C3 (counterexample): a top-level document built without a session
serializes with a `session` key present and mapped to JSON null,
contradicting the claim that the output contains no `session` key (the
`Option` field has no skip attribute). -/
theorem c3_counterexample_session_null_key :
    TopLevel.toJson tlNone = PanicOr.ok jTlNone ∧
    "session" ∈ jTlNone.objKeys ∧
    jTlNone.objLookup "session" = some Json.null :=
  ⟨rfl, by decide, rfl⟩

/-- Claim C3 (amended): every successfully serialized top-level document
contains the `session` key; its value is null exactly when no session was
supplied, and the session object otherwise. -/
theorem c3_session_key_always_present (t : TopLevel) (j : Json)
    (h : TopLevel.toJson t = PanicOr.ok j) :
    "session" ∈ j.objKeys ∧
    (j.objLookup "session" = some Json.null ↔ t.session = none) := by
  unfold TopLevel.toJson at h
  cases hc : TopLevel.serialize_cameras t.camerasDb t.include_days with
  | panic e => rw [hc] at h; simp [PanicOr.bind] at h
  | ok cams =>
    rw [hc] at h
    simp only [PanicOr.bind] at h
    cases hs : t.session with
    | none =>
      rw [hs] at h
      simp only [sessionFieldJson, PanicOr.bind, PanicOr.ok.injEq] at h
      subst h
      have hl : (Json.obj
          [("timeZoneName", Json.str t.time_zone_name),
           ("cameras", cams), ("session", Json.null)]).objLookup "session" =
          some Json.null := rfl
      exact ⟨objLookup_some_mem_keys _ _ _ hl, by rw [hl]; simp⟩
    | some s =>
      rw [hs] at h
      simp only [sessionFieldJson] at h
      cases hcs : Session.serialize_csrf s.csrf with
      | panic e =>
        unfold Session.toJson at h
        rw [hcs] at h
        simp [PanicOr.bind] at h
      | ok c =>
        unfold Session.toJson at h
        rw [hcs] at h
        simp only [PanicOr.bind, PanicOr.ok.injEq] at h
        subst h
        have hl : (Json.obj
            [("timeZoneName", Json.str t.time_zone_name),
             ("cameras", cams),
             ("session", Json.obj
               [("username", Json.str s.username), ("csrf", c)])]).objLookup
            "session" =
            some (Json.obj [("username", Json.str s.username), ("csrf", c)]) := rfl
        refine ⟨objLookup_some_mem_keys _ _ _ hl, ?_⟩
        rw [hl]
        simp [hs]

/-- Claim C3 (witness): the amended theorem applied to the concrete
session-less document over `dbOne`. -/
theorem c3_session_key_always_present_witness :
    "session" ∈ jTlNone.objKeys ∧
    (jTlNone.objLookup "session" = some Json.null ↔ tlNone.session = none) :=
  c3_session_key_always_present tlNone jTlNone rfl

/-- Claim C4: the serialized `streams` member is a map (JSON object) keyed
by the stable stream-type names; an absent slot contributes no key at all,
and in particular a camera with only slot 0 populated maps exactly one key,
slot 0's type name (`main`), with no key for slot 1. -/
theorem c4_streams_map_omits_absent_slots :
    (∀ s0 s1 : Option StreamView,
      (Camera.serialize_streams (s0, s1)).isObj = true ∧
      (Camera.serialize_streams (s0, s1)).objKeys =
        (if s0.isSome then ["main"] else []) ++ (if s1.isSome then ["sub"] else [])) ∧
    (∀ v : StreamView,
      Camera.serialize_streams (some v, none) =
        Json.obj [("main", StreamView.toJson v)]) := by
  constructor
  · intro s0 s1
    cases s0 <;> cases s1 <;>
      simp [Camera.serialize_streams, Json.isObj, Json.objKeys, StreamType.fromIndex]
  · intro v
    rfl

/-- Claim C4 (witness): the theorem applied to a camera view with only
slot 0 populated (by `vNoRange`). -/
theorem c4_streams_map_omits_absent_slots_witness :
    ((Camera.serialize_streams (some vNoRange, none)).isObj = true ∧
     (Camera.serialize_streams (some vNoRange, none)).objKeys =
       (if (some vNoRange).isSome then ["main"] else []) ++
       (if (none : Option StreamView).isSome then ["sub"] else [])) ∧
    Camera.serialize_streams (some vNoRange, none) =
      Json.obj [("main", StreamView.toJson vNoRange)] :=
  ⟨c4_streams_map_omits_absent_slots.1 (some vNoRange) none,
   c4_streams_map_omits_absent_slots.2 vNoRange⟩

/-- Claim C5: a wrapped stream's serialization contains the `days` key
exactly when per-day detail was requested; with detail not requested the
key is absent entirely (the field carries a skip attribute), and with
detail requested it is present. -/
theorem c5_days_key_iff_requested (db : LockedDatabase) (id : Int) (b : Bool)
    (v : StreamView) (hw : Stream.wrap db (some id) b = Except.ok (some v)) :
    ("days" ∈ (StreamView.toJson v).objKeys ↔ b = true) := by
  obtain ⟨s, hg, hv⟩ := Stream.wrap_some_inv db id b v hw
  subst hv
  cases b with
  | false => simp [StreamView.toJson, Json.objKeys]
  | true => simp [StreamView.toJson, Json.objKeys]

/-- Claim C5 (witness): the theorem applied to stream 1 of `dbC2` with and
without day detail, at the concrete resulting views. -/
theorem c5_days_key_iff_requested_witness :
    ("days" ∈ (StreamView.toJson vWithDays).objKeys ↔ true = true) :=
  c5_days_key_iff_requested dbC2 1 true vWithDays (by decide)

/-- `from_utf8` succeeds on the csrf buffer for every hash: base64 output
and the untouched zero bytes of an ASCII-clean buffer are all ASCII. -/
theorem strFromUtf8Ascii_encode (h : SessionHash) (out : List Nat)
    (hout : ∀ x ∈ out, x < 128) :
    strFromUtf8Ascii (h.encode_base64 out) =
      some (String.mk ((h.encode_base64 out).map Char.ofNat)) := by
  unfold strFromUtf8Ascii
  rw [if_pos]
  rw [List.all_eq_true]
  intro x hx
  unfold SessionHash.encode_base64 at hx
  simp only [List.mem_append] at hx
  rcases hx with hx | hx
  · simpa using base64EncodeBytes_all_lt_128 h.bytes x hx
  · simpa using hout x (List.drop_subset _ _ hx)

/-- Claim C6: the `cameras` member is emitted as an ordered sequence (a JSON
array, not a map) whose elements correspond one-to-one, in order, to the
snapshot's camera entries — under the snapshot invariant that
`cameras_by_id` iterates in strictly ascending id order, the sequence is in
ascending camera-id order; and a day-aggregate map is emitted with exactly
the source map's keys in the source's order, so with ascending source keys
the emitted keys are strictly ascending (k1 < k2 appears as k1 before
k2). -/
theorem c6_output_order_matches_snapshot :
    (∀ (db : LockedDatabase) (b : Bool) (j : Json),
      List.Chain' (fun p q => p.1 < q.1) db.camerasById →
      TopLevel.serialize_cameras db b = PanicOr.ok j →
      ∃ elems, j = Json.arr elems ∧
        List.Forall₂
          (fun (p : Int × DbCamera) (e : Json) =>
            ∃ cv, Camera.wrap p.2 db b = Except.ok cv ∧ e = CameraView.toJson cv)
          db.camerasById elems) ∧
    (∀ d : List (StreamDayKey × StreamDayValue),
      List.Chain' (fun a c => a.1.key < c.1.key) d →
      (Stream.serialize_days (some d)).objKeys = d.map (fun kv => kv.1.key) ∧
      List.Chain' (· < ·) ((Stream.serialize_days (some d)).objKeys)) := by
  constructor
  · intro db b j hchain hok
    unfold TopLevel.serialize_cameras at hok
    cases hl : serializeCamerasList db b db.cameras_by_id with
    | panic e =>
      rw [hl] at hok
      simp [PanicOr.bind] at hok
    | ok js =>
      rw [hl] at hok
      simp only [PanicOr.bind, PanicOr.ok.injEq] at hok
      subst hok
      exact ⟨js, rfl, serializeCamerasList_ok db b db.cameras_by_id js hl⟩
  · intro d hchain
    have hk : (Stream.serialize_days (some d)).objKeys = d.map (fun kv => kv.1.key) := by
      simp [Stream.serialize_days, Json.objKeys, List.map_map, Function.comp]
    refine ⟨hk, ?_⟩
    rw [hk, List.chain'_map]
    exact hchain

/-- Claim C6 (witness): part one applied to the one-camera snapshot `dbOne`
(whose serialization is the one-element array `jOne`), part two applied to
the two-day bucket list `dTwo` with ascending keys. -/
theorem c6_output_order_matches_snapshot_witness :
    (∃ elems, jOne = Json.arr elems ∧
      List.Forall₂
        (fun (p : Int × DbCamera) (e : Json) =>
          ∃ cv, Camera.wrap p.2 dbOne false = Except.ok cv ∧ e = CameraView.toJson cv)
        dbOne.camerasById elems) ∧
    ((Stream.serialize_days (some dTwo)).objKeys = dTwo.map (fun kv => kv.1.key) ∧
     List.Chain' (· < ·) ((Stream.serialize_days (some dTwo)).objKeys)) :=
  ⟨c6_output_order_matches_snapshot.1 dbOne false jOne
     (by simp [dbOne, List.chain'_singleton]) rfl,
   c6_output_order_matches_snapshot.2 dTwo
     (by simp [dTwo, List.chain'_cons, List.chain'_singleton]; decide)⟩

/-- Claim C7: in every serialized Recording, `growing` appears exactly when
it is true (the false default is suppressed), and `firstUncommitted` and
`endId` each appear exactly when the corresponding optional value is
present. -/
theorem c7_recording_conditional_fields (r : Recording) :
    ("growing" ∈ (Recording.toJson r).objKeys ↔ r.growing = true) ∧
    ("firstUncommitted" ∈ (Recording.toJson r).objKeys ↔
      r.first_uncommitted.isSome = true) ∧
    ("endId" ∈ (Recording.toJson r).objKeys ↔ r.end_id.isSome = true) := by
  obtain ⟨st, en, sfb, vs, sha, sid, oid, fu, eid, w, hgt, g⟩ := r
  cases g <;> cases fu <;> cases eid <;>
    simp [Recording.toJson, Json.objKeys]

/-- Claim C7 (witness): the theorem applied to the concrete recording
`recGrowing`. -/
theorem c7_recording_conditional_fields_witness :
    ("growing" ∈ (Recording.toJson recGrowing).objKeys ↔
      recGrowing.growing = true) ∧
    ("firstUncommitted" ∈ (Recording.toJson recGrowing).objKeys ↔
      recGrowing.first_uncommitted.isSome = true) ∧
    ("endId" ∈ (Recording.toJson recGrowing).objKeys ↔
      recGrowing.end_id.isSome = true) :=
  c7_recording_conditional_fields recGrowing

/-- Claim C8 (counterexample): for the 16-byte all-zero CSRF hash, the
serialized `csrf` field is the 32-character buffer string `csrfOut`, which
is not a base64 string: decoding it fails (its 25th character is a NUL
byte left in the fixed 32-byte buffer, not a base64 character), so the
field does not decode back to the 16 zero bytes as claimed. -/
theorem c8_counterexample_csrf_not_pure_base64 :
    Session.serialize_csrf hashZero16 = PanicOr.ok (Json.str csrfOut) ∧
    csrfOut.length = 32 ∧
    base64Decode csrfOut = none ∧
    (csrfOut.data.getD 24 'A').toNat = 0 :=
  ⟨rfl, by decide, by decide, by decide⟩

/-- Claim C8 (amended): serializing the 16-byte all-zero CSRF hash produces
a fixed-length 32-character `csrf` string whose first 24 characters are
the base64 encoding of the hash — decodable back to exactly 16 zero
bytes — followed by 8 NUL bytes of untouched buffer; and for every hash the
buffer converts to text (the base64 step only produces ASCII, hence valid
UTF-8, so the conversion's panic branch is unreachable). -/
theorem c8_csrf_fixed_buffer_base64_prefix :
    (Session.serialize_csrf hashZero16 = PanicOr.ok (Json.str csrfOut) ∧
     csrfOut.length = 32 ∧
     base64Decode (String.mk (csrfOut.data.take 24)) = some (List.replicate 16 0) ∧
     (csrfOut.data.drop 24).all (fun c => c.toNat = 0) = true ∧
     csrfOut.data.all (fun c => c.toNat < 128) = true) ∧
    (∀ h : SessionHash, ∃ s, Session.serialize_csrf h = PanicOr.ok (Json.str s)) := by
  constructor
  · exact ⟨rfl, by decide, by decide, by decide, by decide⟩
  · intro hh
    have hout : ∀ x ∈ (List.replicate 32 0 : List Nat), x < 128 := by
      intro x hx
      have hz := List.eq_of_mem_replicate hx
      omega
    refine ⟨String.mk ((hh.encode_base64 (List.replicate 32 0)).map Char.ofNat), ?_⟩
    unfold Session.serialize_csrf
    rw [strFromUtf8Ascii_encode hh (List.replicate 32 0) hout]

/-- Claim C8 (witness): the amended theorem's universal part applied to the
all-zero hash. -/
theorem c8_csrf_fixed_buffer_base64_prefix_witness :
    ∃ s, Session.serialize_csrf hashZero16 = PanicOr.ok (Json.str s) :=
  c8_csrf_fixed_buffer_base64_prefix.2 hashZero16

/-- Claim C9: encoding a PathInput body with path `/mnt/nvr` and decoding it
back yields a value whose path field is exactly `/mnt/nvr`. -/
theorem c9_path_input_round_trip :
    SampleFileDirPath.deserialize (pathInputBody "/mnt/nvr") =
      Except.ok { path := "/mnt/nvr" } := by
  decide

/-- Claim C10: every view produced by `Stream::wrap` has
`min_start_time_90k` present exactly when `max_end_time_90k` is present —
both are projections of the same optional recorded range. -/
theorem c10_min_max_presence_iff (db : LockedDatabase) (id : Int) (b : Bool)
    (v : StreamView) (hw : Stream.wrap db (some id) b = Except.ok (some v)) :
    (v.min_start_time_90k.isSome = true ↔ v.max_end_time_90k.isSome = true) := by
  obtain ⟨s, hg, hv⟩ := Stream.wrap_some_inv db id b v hw
  subst hv
  cases s.range <;> simp

/-- Claim C10 (witness): the theorem applied to the concrete no-range
stream 1 of `dbC2`. -/
theorem c10_min_max_presence_iff_witness :
    (vNoRange.min_start_time_90k.isSome = true ↔
      vNoRange.max_end_time_90k.isSome = true) :=
  c10_min_max_presence_iff dbC2 1 false vNoRange (by decide)

end Moonfire
